import Mathlib

/-!
Shallow embedding of the RAG core of the seniorProject repository
(src/rag/ingestDocs.py, src/rag/tools/vectorStore.py, src/rag/agents/agent.py).

External collaborators are modelled as explicit parameters:
* the embedding model and ChromaDB's nearest-neighbour search are modelled by a
  distance function `dist : String → String → Nat` (distance between a query
  text and a stored document); ChromaDB's `collection.query` returns the stored
  documents ranked by ascending distance, at most `n_results` of them;
* the Ollama generative model is an oracle `Llm`; `Except.error` stands for an
  HTTP failure status (what `raise_for_status` would turn into an exception);
* the text splitter from langchain is a parameter `chunkText : String → List String`;
* ChromaDB persistence is a map from collection name to the list of stored
  chunks; `collection.add` may fail at the store level, which is modelled by
  the flag `addOk` passed to `ingestForUser`.

Calls that the code makes against the store and the model are recorded in an
event trace so that claims about which calls happen (and in which order) are
provable.
-/

namespace SeniorProject

/-- Chunk metadata, as built by `ingestFile` in src/rag/ingestDocs.py:
`{"source": path.name, "fileType": path.suffix.lower(), "chunkIndex": i}`. -/
structure ChunkMeta where
  source : String
  fileType : String
  chunkIndex : Nat
deriving DecidableEq, Repr

/-- A stored record in a ChromaDB collection: id, document text and metadata. -/
structure Chunk where
  id : String
  document : String
  meta : ChunkMeta
deriving DecidableEq, Repr

/-- One element of the list returned by `ChromaRetriever.retrieve`
(src/rag/tools/vectorStore.py lines 54-61).  `metadata = none` models the `{}`
fallback for an out-of-range index, `distance = none` the `None` fallback. -/
structure RetrievalResult where
  document : String
  metadata : Option ChunkMeta
  distance : Option Nat
deriving DecidableEq, Repr

/-- Observable calls made by the code: a call to `ChromaRetriever.retrieve`,
a `collection.count()`, a `collection.query(...)` (which embeds the query text),
and a `requests.post` to the Ollama generate endpoint (`system = none` for the
profile call of `buildStyleProfile`, `some s` for the final generation call). -/
inductive Event where
  | retrieveCall (queryText : String) (limit : Option Nat)
  | storeCount (collName : String)
  | storeQuery (collName : String) (queryText : String) (nResults : Nat)
  | modelCall (system : Option String) (prompt : String)
deriving DecidableEq, Repr

def Event.isStore : Event → Bool
  | Event.storeCount _ => true
  | Event.storeQuery _ _ _ => true
  | _ => false

def Event.isStoreQuery : Event → Bool
  | Event.storeQuery _ _ _ => true
  | _ => false

def Event.isRetrieve : Event → Bool
  | Event.retrieveCall _ _ => true
  | _ => false

def Event.isModel : Event → Bool
  | Event.modelCall _ _ => true
  | _ => false

/-- The final generation call of `generateInUserVoice` carries a system
instruction; the profile call of `buildStyleProfile` does not. -/
def Event.isGenerate : Event → Bool
  | Event.modelCall (some _) _ => true
  | _ => false

/-- Python exceptions raised by the embedded code. -/
inductive PyError where
  | valueError (msg : String)
  | nameError (missing : String)
  | attributeError (missing : String)
  | httpError
  | storeError
deriving DecidableEq, Repr

instance {ε α : Type} [DecidableEq ε] [DecidableEq α] :
    DecidableEq (Except ε α) := fun a b =>
  match a, b with
  | Except.error e, Except.error f =>
      if h : e = f then Decidable.isTrue (by rw [h])
      else Decidable.isFalse (by simp [h])
  | Except.error _, Except.ok _ => Decidable.isFalse (by simp)
  | Except.ok _, Except.error _ => Decidable.isFalse (by simp)
  | Except.ok x, Except.ok y =>
      if h : x = y then Decidable.isTrue (by rw [h])
      else Decidable.isFalse (by simp [h])

/-- ChromaDB persistence: each collection name holds a list of chunks.
A name that was never written holds `[]` (collections are created lazily by
`get_or_create_collection`, and a fresh collection is empty). -/
abbrev Store := String → List Chunk

/-- The generative model oracle: given an optional system instruction and a
prompt, either an HTTP-level failure or the response body text. -/
abbrev Llm := Option String → String → Except Unit String

/-- The per-user collection name, `f"user_{userId}_writings"`, as derived both
in `ingestForUser` (ingestDocs.py line 118) and in `ChromaRetriever.__init__`
(vectorStore.py line 26). -/
def collectionNameFor (userId : String) : String :=
  "user_" ++ userId ++ "_writings"

/-! ## ChromaRetriever (src/rag/tools/vectorStore.py) -/

/-- `n = limit or self.maxResults` (vectorStore.py line 40): Python's `or`
replaces any falsy value — `None` or `0` — by the default. -/
def effectiveLimit (limit : Option Nat) (maxResults : Nat) : Nat :=
  match limit with
  | none => maxResults
  | some 0 => maxResults
  | some m => m

/-- Model of `self._collection.query(query_texts=[query], n_results=n)`:
ChromaDB embeds the query, ranks the stored chunks by ascending distance and
returns the first `n` of them as parallel lists
(documents, metadatas, distances). -/
def collectionQuery (dist : String → String → Nat) (coll : List Chunk)
    (queryText : String) (n : Nat) :
    List String × List ChunkMeta × List Nat :=
  let scored := coll.map (fun c => (c, dist queryText c.document))
  let ranked := scored.insertionSort (fun a b => a.2 ≤ b.2)
  let top := ranked.take n
  (top.map (fun p => p.1.document), top.map (fun p => p.1.meta), top.map (fun p => p.2))

/-- The list comprehension of vectorStore.py lines 54-61: for each index `i`
into `documents`, pair the document with `metadatas[i] if i < len(metadatas)
else {}` and `distances[i] if i < len(distances) else None`. -/
def shapeResults (documents : List String) (metadatas : List ChunkMeta)
    (distances : List Nat) : List RetrievalResult :=
  (List.range documents.length).map (fun i =>
    { document := documents.getD i ""
      metadata := metadatas[i]?
      distance := distances[i]? })

/-- `ChromaRetriever.retrieve` (vectorStore.py lines 35-61).  The retriever's
collection (with its name) and its `maxResults` configuration are passed
explicitly; the returned trace records the retrieve call itself and the store
calls it makes. -/
def retrieve (dist : String → String → Nat) (collName : String)
    (coll : List Chunk) (maxResults : Nat) (query : String)
    (limit : Option Nat) :
    Except PyError (List RetrievalResult) × List Event :=
  if query = "" then
    (Except.error (PyError.valueError "Query must be a non-empty string."),
     [Event.retrieveCall query limit])
  else
    let n := effectiveLimit limit maxResults
    let available := coll.length
    if available = 0 then
      (Except.ok [], [Event.retrieveCall query limit, Event.storeCount collName])
    else
      let n := min n available
      let (documents, metadatas, distances) := collectionQuery dist coll query n
      (Except.ok (shapeResults documents metadatas distances),
       [Event.retrieveCall query limit, Event.storeCount collName,
        Event.storeQuery collName query n])

/-- The ids of the chunks of a given source file, as fetched by
`collection.get(where={"source": filename})["ids"]` (vectorStore.py line 71,
ingestDocs.py line 130). -/
def sourceIds (coll : List Chunk) (filename : String) : List String :=
  (coll.filter (fun c => decide (c.meta.source = filename))).map (fun c => c.id)

/-- The delete-by-source pattern shared by `ChromaRetriever.deleteSource`
(vectorStore.py lines 71-73) and `ingestForUser` (ingestDocs.py lines 130-132):
fetch the ids whose metadata `source` matches, and delete those ids if there
are any. -/
def deleteBySource (coll : List Chunk) (filename : String) : List Chunk :=
  if sourceIds coll filename = [] then coll
  else coll.filter (fun c => decide (c.id ∉ sourceIds coll filename))

/-- `ChromaRetriever.listSources` (vectorStore.py lines 63-67): the sorted set
of `source` metadata values. -/
def listSources (coll : List Chunk) : List String :=
  ((coll.map (fun c => c.meta.source)).dedup).insertionSort (fun a b => a ≤ b)

/-- `ChromaRetriever.deleteSource` (vectorStore.py lines 69-74): returns
`len(existing["ids"])` and the collection after the delete. -/
def deleteSource (coll : List Chunk) (filename : String) : Nat × List Chunk :=
  ((sourceIds coll filename).length, deleteBySource coll filename)

/-- `ChromaRetriever.count` (vectorStore.py lines 76-77). -/
def count (coll : List Chunk) : Nat :=
  coll.length

/-! ## Ingestion (src/rag/ingestDocs.py) -/

def SUPPORTED_EXTENSIONS : List String := [".pdf", ".txt", ".md", ".docx"]

/-- The `pathlib.Path` attributes ingestion uses: `name` is the filename with
extension, `stem` the filename without its final extension, `suffix` the final
extension as lowercased by the call sites (`path.suffix.lower()`). -/
structure FileInfo where
  name : String
  stem : String
  suffix : String
deriving DecidableEq, Repr

/-- `ingestFile` (ingestDocs.py lines 72-92), with text extraction already
performed (`text`) and the langchain splitter as a parameter (`chunkText`).
The loop `for i, chunk in enumerate(chunks)` appends `chunk` to `documents`,
the metadata dict to `metadatas`, and `f"{path.stem}-c{i}"` to `ids`. -/
def ingestFile (chunkText : String → List String) (text : String)
    (f : FileInfo) : List String × List ChunkMeta × List String :=
  let chunks := chunkText text
  (chunks,
   (List.range chunks.length).map (fun i =>
     { source := f.name, fileType := f.suffix, chunkIndex := i }),
   (List.range chunks.length).map (fun i => f.stem ++ "-c" ++ toString i))

/-- `collection.add(ids=ids, documents=documents, metadatas=metadatas)`
materialises one stored record per position of the three parallel lists. -/
def buildRecords : List String → List ChunkMeta → List String → List Chunk
  | d :: ds, m :: ms, i :: is =>
      { id := i, document := d, meta := m } :: buildRecords ds ms is
  | _, _, _ => []

/-- The summary dict returned by `ingestForUser` (ingestDocs.py lines 136-141). -/
structure IngestSummary where
  collection : String
  file : String
  chunks : Nat
  totalDocsInCollection : Nat
deriving DecidableEq, Repr

/-- `ingestForUser` (ingestDocs.py lines 95-141), with extraction and chunking
abstracted as in `ingestFile`.  The order of effects mirrors the source: the
chunks of the same source file are deleted first (lines 129-132), then
`collection.add` runs (line 134).  `addOk` models whether the store completes
the `add`; when it does not, the exception propagates after the delete has
already been applied. -/
def ingestForUser (chunkText : String → List String) (text : String)
    (f : FileInfo) (userId : String) (store : Store) (addOk : Bool) :
    Except PyError IngestSummary × Store :=
  if f.suffix ∉ SUPPORTED_EXTENSIONS then
    (Except.error (PyError.valueError ("Unsupported file type " ++ f.suffix)), store)
  else
    let (documents, metadatas, ids) := ingestFile chunkText text f
    if documents = [] then
      (Except.error (PyError.valueError ("No extractable text found in " ++ f.name)), store)
    else
      let collectionName := collectionNameFor userId
      let coll := store collectionName
      let collAfterDelete := deleteBySource coll f.name
      if addOk then
        let newColl := collAfterDelete ++ buildRecords documents metadatas ids
        (Except.ok { collection := collectionName, file := f.name,
                     chunks := documents.length,
                     totalDocsInCollection := newColl.length },
         fun n => if n = collectionName then newColl else store n)
      else
        (Except.error PyError.storeError,
         fun n => if n = collectionName then collAfterDelete else store n)

/-! ## Writing agent (src/rag/agents/agent.py) -/

def RAG_TOP_K : Nat := 6

/-- The four aspect-probing queries of `buildStyleProfile`
(agent.py lines 25-30). -/
def styleAspects : List String :=
  ["descriptive prose and scene setting",
   "dialogue and character voice",
   "sentence rhythm and pacing",
   "emotional tone and atmosphere"]

/-- The instruction prefix of the profile prompt (agent.py lines 43-47). -/
def profileInstruction : String :=
  "You are a literary analyst. Read these writing samples from a single author " ++
  "and describe their style in 3-4 sentences covering: sentence length and rhythm, " ++
  "vocabulary level, tone, and any distinctive habits. Be specific and concise.\n\nSAMPLES:\n"

/-- The loop of agent.py lines 32-36: for each aspect in order, retrieve with
`limit=2` and append the documents of the results to `samples`. -/
def collectSamples (dist : String → String → Nat) (collName : String)
    (coll : List Chunk) :
    List String → Except PyError (List String) × List Event
  | [] => (Except.ok [], [])
  | aspect :: rest =>
    match retrieve dist collName coll 6 aspect (some 2) with
    | (Except.error e, tr) => (Except.error e, tr)
    | (Except.ok results, tr) =>
      match collectSamples dist collName coll rest with
      | (Except.error e, tr2) => (Except.error e, tr ++ tr2)
      | (Except.ok more, tr2) =>
          (Except.ok (results.map (fun r => r.document) ++ more), tr ++ tr2)

/-- `buildStyleProfile` (agent.py lines 20-55).  When no samples were found the
fixed sentinel is returned without a model call; otherwise the first 8 samples
are joined with the delimiter and sent to the model once, and the response body
is stripped of surrounding whitespace. -/
def buildStyleProfile (dist : String → String → Nat) (llm : Llm)
    (collName : String) (coll : List Chunk) :
    Except PyError String × List Event :=
  match collectSamples dist collName coll styleAspects with
  | (Except.error e, tr) => (Except.error e, tr)
  | (Except.ok samples, tr) =>
    if samples = [] then
      (Except.ok "No writing samples available yet.", tr)
    else
      let combined := String.intercalate "\n\n---\n\n" (samples.take 8)
      let profilePrompt := profileInstruction ++ combined
      match llm none profilePrompt with
      | Except.error _ =>
          (Except.error PyError.httpError, tr ++ [Event.modelCall none profilePrompt])
      | Except.ok body =>
          (Except.ok body.trim, tr ++ [Event.modelCall none profilePrompt])

/-- The result dict of `generateInUserVoice`: the error-payload shape of
agent.py lines 83-88 has an `error` message and null fields, the success shape
of lines 127-131 has no `error` key (`error = none`). -/
structure GenerationResult where
  error : Option String
  generatedText : Option String
  styleProfile : Option String
  sourcesUsed : List String
deriving DecidableEq, Repr

/-- The system instruction of agent.py lines 99-106. -/
def systemInstructionText (styleProfile writingContext : String) : String :=
  "You are a writing assistant that generates text ONLY in the style of the provided author samples. " ++
  "Study the samples carefully — their voice, rhythm, word choices, and structure — then continue " ++
  "or create new content that is indistinguishable from their own writing. " ++
  "Do NOT default to a generic style. Mirror the author exactly.\n\n" ++
  "AUTHOR STYLE PROFILE:\n" ++ styleProfile ++ "\n\n" ++
  "WRITING SAMPLES FROM THIS AUTHOR:\n" ++ writingContext

/-- `generateInUserVoice` (agent.py lines 58-131).  Two statements of the
source cannot execute as written:
* line 110 appends `f"\nAdditional guidance: {style_hint}"`, but no name
  `style_hint` is in scope (the parameter is `styleHint`), so a truthy
  `styleHint` raises `NameError` before the final model call;
* line 123 calls `response.raiseForStatus()`, but a `requests` response has no
  attribute `raiseForStatus` (the method is `raise_for_status`, used correctly
  at line 54), so once the final `requests.post` returns, an `AttributeError`
  is raised before the response text can be returned. -/
def generateInUserVoice (dist : String → String → Nat) (llm : Llm)
    (store : Store) (prompt : String) (userId : String) (styleHint : String) :
    Except PyError GenerationResult × List Event :=
  let collectionName := collectionNameFor userId
  let coll := store collectionName
  if coll.length = 0 then
    (Except.ok { error := some "No writing samples uploaded yet. Please upload some of your work first.",
                 generatedText := none, styleProfile := none, sourcesUsed := [] },
     [Event.storeCount collectionName])
  else
    match retrieve dist collectionName coll 6 prompt (some RAG_TOP_K) with
    | (Except.error e, tr1) => (Except.error e, Event.storeCount collectionName :: tr1)
    | (Except.ok relevantChunks, tr1) =>
      let sources :=
        (relevantChunks.map (fun r => (r.metadata.map (fun m => m.source)).getD "unknown")).dedup
      match buildStyleProfile dist llm collectionName coll with
      | (Except.error e, tr2) =>
          (Except.error e, Event.storeCount collectionName :: (tr1 ++ tr2))
      | (Except.ok styleProfile, tr2) =>
        let writingContext :=
          String.intercalate "\n\n---\n\n" (relevantChunks.map (fun r => r.document))
        let systemPrompt := systemInstructionText styleProfile writingContext
        let userMessage := "Task: " ++ prompt
        if styleHint ≠ "" then
          (Except.error (PyError.nameError "style_hint"),
           Event.storeCount collectionName :: (tr1 ++ tr2))
        else
          let fullPrompt := userMessage
          (Except.error (PyError.attributeError "raiseForStatus"),
           Event.storeCount collectionName ::
             (tr1 ++ tr2 ++ [Event.modelCall (some systemPrompt) fullPrompt]))
  -- `sources` would be part of the success dict of lines 127-131, which is
  -- unreachable; the binding above mirrors line 93 (a Python set of the
  -- source filenames, here deduplicated in first-occurrence order).

/-! ## Properties of the delete-by-source pattern -/

theorem deleteBySource_subset (coll : List Chunk) (filename : String) :
    ∀ c ∈ deleteBySource coll filename, c ∈ coll := by
  intro c hc
  unfold deleteBySource at hc
  split at hc
  · exact hc
  · exact (List.mem_filter.1 hc).1

theorem not_mem_deleteBySource (coll : List Chunk) (filename : String) :
    ∀ c ∈ coll, c.meta.source = filename → c ∉ deleteBySource coll filename := by
  intro c hc hsrc hmem
  have hid : c.id ∈ sourceIds coll filename :=
    List.mem_map_of_mem _ (List.mem_filter.2 ⟨hc, by simp [hsrc]⟩)
  unfold deleteBySource at hmem
  by_cases he : sourceIds coll filename = []
  · rw [he] at hid
    simp at hid
  · rw [if_neg he] at hmem
    have h1 := (List.mem_filter.1 hmem).2
    simp only [decide_eq_true_eq] at h1
    exact h1 hid

theorem deleteBySource_source_ne (coll : List Chunk) (filename : String) :
    ∀ c ∈ deleteBySource coll filename, c.meta.source ≠ filename :=
  fun c hc hsrc =>
    not_mem_deleteBySource coll filename c (deleteBySource_subset coll filename c hc) hsrc hc

theorem deleteBySource_append (kept new : List Chunk) (nm : String)
    (hk : ∀ c ∈ kept, c.meta.source ≠ nm)
    (hkid : ∀ c ∈ kept, c.id ∉ new.map (fun x => x.id))
    (hn : ∀ c ∈ new, c.meta.source = nm)
    (hne : new ≠ []) :
    deleteBySource (kept ++ new) nm = kept := by
  have hsrc : sourceIds (kept ++ new) nm = new.map (fun x => x.id) := by
    unfold sourceIds
    rw [List.filter_append,
      List.filter_eq_nil_iff.2 (fun c hc => by simpa using hk c hc),
      List.filter_eq_self.2 (fun c hc => by simpa using hn c hc),
      List.nil_append]
  have hnids : new.map (fun x => x.id) ≠ [] := by simpa using hne
  unfold deleteBySource
  rw [hsrc, if_neg hnids, List.filter_append,
    List.filter_eq_self.2 (fun c hc => by simpa using hkid c hc),
    List.filter_eq_nil_iff.2
      (fun c hc => by simpa using List.mem_map_of_mem (fun x => x.id) hc),
    List.append_nil]

/-! ## Properties of ingestion -/

/-- The records `collection.add` inserts for a file, built from the parallel
lists that `ingestFile` produces. -/
def newRecords (chunkText : String → List String) (text : String)
    (f : FileInfo) : List Chunk :=
  buildRecords (ingestFile chunkText text f).1 (ingestFile chunkText text f).2.1
    (ingestFile chunkText text f).2.2

theorem buildRecords_range (ds : List String) (fm : Nat → ChunkMeta)
    (fi : Nat → String) :
    buildRecords ds ((List.range ds.length).map fm) ((List.range ds.length).map fi) =
      (List.range ds.length).map (fun j =>
        { id := fi j, document := ds.getD j "", meta := fm j }) := by
  induction ds generalizing fm fi with
  | nil => rfl
  | cons d ds ih =>
    simp only [List.length_cons, List.range_succ_eq_map, List.map_cons,
      List.map_map, buildRecords, List.getD_cons_zero, List.getD_cons_succ,
      Function.comp]
    exact congrArg (List.cons _) (ih _ _)

theorem newRecords_eq (chunkText : String → List String) (text : String)
    (f : FileInfo) :
    newRecords chunkText text f =
      (List.range (chunkText text).length).map (fun j =>
        { id := f.stem ++ "-c" ++ toString j,
          document := (chunkText text).getD j "",
          meta := { source := f.name, fileType := f.suffix, chunkIndex := j } }) := by
  unfold newRecords ingestFile
  exact buildRecords_range _ _ _

theorem newRecords_source (chunkText : String → List String) (text : String)
    (f : FileInfo) :
    ∀ c ∈ newRecords chunkText text f, c.meta.source = f.name := by
  intro c hc
  rw [newRecords_eq] at hc
  obtain ⟨j, _, rfl⟩ := List.mem_map.1 hc
  rfl

theorem newRecords_id_derivation (chunkText : String → List String) (text : String)
    (f : FileInfo) :
    ∀ c ∈ newRecords chunkText text f,
      c.id = f.stem ++ "-c" ++ toString c.meta.chunkIndex := by
  intro c hc
  rw [newRecords_eq] at hc
  obtain ⟨j, _, rfl⟩ := List.mem_map.1 hc
  rfl

theorem newRecords_map_id (chunkText : String → List String) (text : String)
    (f : FileInfo) :
    (newRecords chunkText text f).map (fun c => c.id) =
      (ingestFile chunkText text f).2.2 := by
  rw [newRecords_eq]
  unfold ingestFile
  rw [List.map_map]
  rfl

theorem newRecords_ne_nil (chunkText : String → List String) (text : String)
    (f : FileInfo) (hne : chunkText text ≠ []) :
    newRecords chunkText text f ≠ [] := by
  rw [newRecords_eq]
  simpa [List.range_eq_nil] using hne

theorem ingestForUser_ok_eq (chunkText : String → List String) (text : String)
    (f : FileInfo) (userId : String) (store : Store)
    (hsupp : f.suffix ∈ SUPPORTED_EXTENSIONS) (hne : chunkText text ≠ []) :
    ingestForUser chunkText text f userId store true =
      (Except.ok { collection := collectionNameFor userId, file := f.name,
                   chunks := (chunkText text).length,
                   totalDocsInCollection :=
                     (deleteBySource (store (collectionNameFor userId)) f.name ++
                       newRecords chunkText text f).length },
       fun n => if n = collectionNameFor userId
                then deleteBySource (store (collectionNameFor userId)) f.name ++
                     newRecords chunkText text f
                else store n) := by
  unfold ingestForUser newRecords ingestFile
  rw [if_neg (by simpa using hsupp)]
  simp only []
  rw [if_neg hne, if_pos trivial]

theorem ingestForUser_fail_eq (chunkText : String → List String) (text : String)
    (f : FileInfo) (userId : String) (store : Store)
    (hsupp : f.suffix ∈ SUPPORTED_EXTENSIONS) (hne : chunkText text ≠ []) :
    ingestForUser chunkText text f userId store false =
      (Except.error PyError.storeError,
       fun n => if n = collectionNameFor userId
                then deleteBySource (store (collectionNameFor userId)) f.name
                else store n) := by
  unfold ingestForUser ingestFile
  rw [if_neg (by simpa using hsupp)]
  simp only []
  rw [if_neg hne, if_neg (by simp)]

theorem ingestForUser_other_collection (chunkText : String → List String)
    (text : String) (f : FileInfo) (userId : String) (store : Store)
    (addOk : Bool) (n : String) (hn : n ≠ collectionNameFor userId) :
    (ingestForUser chunkText text f userId store addOk).2 n = store n := by
  unfold ingestForUser ingestFile
  by_cases h1 : f.suffix ∉ SUPPORTED_EXTENSIONS
  · rw [if_pos h1]
  · rw [if_neg h1]
    simp only []
    by_cases h2 : chunkText text = []
    · rw [if_pos h2]
    · rw [if_neg h2]
      cases addOk <;> simp [hn]

theorem collectionNameFor_inj (u v : String)
    (h : collectionNameFor u = collectionNameFor v) : u = v := by
  unfold collectionNameFor at h
  have hd : ("user_".data ++ u.data) ++ "_writings".data =
      ("user_".data ++ v.data) ++ "_writings".data := by
    simpa [String.data_append] using congrArg String.data h
  exact String.ext (List.append_inj_right ((List.append_inj' hd rfl).1) rfl)

theorem ingestForUser_ok_collection (chunkText : String → List String)
    (text : String) (f : FileInfo) (userId : String) (store : Store)
    (hsupp : f.suffix ∈ SUPPORTED_EXTENSIONS) (hne : chunkText text ≠ []) :
    (ingestForUser chunkText text f userId store true).2 (collectionNameFor userId) =
      deleteBySource (store (collectionNameFor userId)) f.name ++
        newRecords chunkText text f := by
  rw [ingestForUser_ok_eq chunkText text f userId store hsupp hne]
  simp

/-! ## Claims about ingestion -/

/-- Claim C1, counterexample: with one previously ingested chunk for `a.txt`
and a store whose `add` step fails, `ingestForUser` raises `storeError` only
after the delete has already removed the old chunks, so the namespace ends up
with neither the old chunk set intact nor the new chunk set inserted — the
delete committed before the insert succeeded, which the claim rules out. -/
theorem ingest_add_failure_loses_old_chunks :
    ((ingestForUser (fun _ => ["new text"]) "t" ⟨"a.txt", "a", ".txt"⟩ "u"
        (fun n => if n = collectionNameFor "u"
                  then [⟨"a-c0", "old text", ⟨"a.txt", ".txt", 0⟩⟩] else [])
        false).1 = Except.error PyError.storeError) ∧
    ((ingestForUser (fun _ => ["new text"]) "t" ⟨"a.txt", "a", ".txt"⟩ "u"
        (fun n => if n = collectionNameFor "u"
                  then [⟨"a-c0", "old text", ⟨"a.txt", ".txt", 0⟩⟩] else [])
        false).2 (collectionNameFor "u") = []) ∧
    ((fun n => if n = collectionNameFor "u"
               then [⟨"a-c0", "old text", ⟨"a.txt", ".txt", 0⟩⟩] else ([] : List Chunk))
         (collectionNameFor "u") ≠ []) :=
  ⟨by decide, by decide, by decide⟩

/-- Claim C1, amended: `ingestForUser` deletes the prior chunks of the source
file before inserting, so when the insert step fails the ingestion reports the
failure with the old chunks of that source already removed and no new chunks
present: every chunk still in the namespace was there before, and none of the
chunks whose metadata `source` matches the file survives. -/
theorem ingest_add_failure_leaves_source_deleted
    (chunkText : String → List String) (text : String) (f : FileInfo)
    (userId : String) (store : Store)
    (hsupp : f.suffix ∈ SUPPORTED_EXTENSIONS) (hne : chunkText text ≠ []) :
    ((ingestForUser chunkText text f userId store false).1 =
        Except.error PyError.storeError) ∧
    (∀ c ∈ (ingestForUser chunkText text f userId store false).2
        (collectionNameFor userId), c ∈ store (collectionNameFor userId)) ∧
    (∀ c ∈ store (collectionNameFor userId), c.meta.source = f.name →
        c ∉ (ingestForUser chunkText text f userId store false).2
          (collectionNameFor userId)) := by
  rw [ingestForUser_fail_eq chunkText text f userId store hsupp hne]
  refine ⟨rfl, ?_, ?_⟩
  · simp only [if_pos rfl]
    exact deleteBySource_subset _ _
  · simp only [if_pos rfl]
    exact not_mem_deleteBySource _ _

theorem ingest_add_failure_leaves_source_deleted_witness :
    ((ingestForUser (fun _ => ["new text"]) "t" ⟨"a.txt", "a", ".txt"⟩ "u"
        (fun n => if n = collectionNameFor "u"
                  then [⟨"a-c0", "old text", ⟨"a.txt", ".txt", 0⟩⟩] else [])
        false).1 = Except.error PyError.storeError) ∧
    (∀ c ∈ (ingestForUser (fun _ => ["new text"]) "t" ⟨"a.txt", "a", ".txt"⟩ "u"
        (fun n => if n = collectionNameFor "u"
                  then [⟨"a-c0", "old text", ⟨"a.txt", ".txt", 0⟩⟩] else [])
        false).2 (collectionNameFor "u"),
        c ∈ (fun n => if n = collectionNameFor "u"
                      then [⟨"a-c0", "old text", ⟨"a.txt", ".txt", 0⟩⟩]
                      else ([] : List Chunk)) (collectionNameFor "u")) ∧
    (∀ c ∈ (fun n => if n = collectionNameFor "u"
                     then [⟨"a-c0", "old text", ⟨"a.txt", ".txt", 0⟩⟩]
                     else ([] : List Chunk)) (collectionNameFor "u"),
        c.meta.source = "a.txt" →
        c ∉ (ingestForUser (fun _ => ["new text"]) "t" ⟨"a.txt", "a", ".txt"⟩ "u"
            (fun n => if n = collectionNameFor "u"
                      then [⟨"a-c0", "old text", ⟨"a.txt", ".txt", 0⟩⟩] else [])
            false).2 (collectionNameFor "u")) :=
  ingest_add_failure_leaves_source_deleted (fun _ => ["new text"]) "t"
    ⟨"a.txt", "a", ".txt"⟩ "u" _ (by decide) (by decide)

/-- Claim C2: ingesting a file and immediately re-ingesting the identical file
leaves the user's collection unchanged — in particular the chunk count and the
set of chunk ids are the same — and every chunk of that source carries the
deterministic id `{sourceStem}-c{chunkIndex}`.  The hypothesis `hiso` states
that no pre-existing chunk of a different source already uses one of the new
ids (in ChromaDB such a collision would make the first `add` itself fail, so
it is implied by the first ingestion succeeding). -/
theorem reingest_idempotent (chunkText : String → List String) (text : String)
    (f : FileInfo) (userId : String) (store : Store)
    (hsupp : f.suffix ∈ SUPPORTED_EXTENSIONS) (hne : chunkText text ≠ [])
    (hiso : ∀ c ∈ store (collectionNameFor userId),
        c.meta.source ≠ f.name → c.id ∉ (ingestFile chunkText text f).2.2) :
    ((ingestForUser chunkText text f userId
        ((ingestForUser chunkText text f userId store true).2) true).2
          (collectionNameFor userId) =
      (ingestForUser chunkText text f userId store true).2 (collectionNameFor userId)) ∧
    (∀ c ∈ (ingestForUser chunkText text f userId store true).2 (collectionNameFor userId),
        c.meta.source = f.name →
        c.id = f.stem ++ "-c" ++ toString c.meta.chunkIndex) := by
  have hcoll1 := ingestForUser_ok_collection chunkText text f userId store hsupp hne
  have hcoll2 := ingestForUser_ok_collection chunkText text f userId
      ((ingestForUser chunkText text f userId store true).2) hsupp hne
  have hdel : deleteBySource
      (deleteBySource (store (collectionNameFor userId)) f.name ++
        newRecords chunkText text f) f.name =
      deleteBySource (store (collectionNameFor userId)) f.name := by
    refine deleteBySource_append _ _ _ (deleteBySource_source_ne _ _) ?_
      (newRecords_source _ _ _) (newRecords_ne_nil _ _ _ hne)
    intro c hc
    rw [newRecords_map_id]
    exact hiso c (deleteBySource_subset _ _ c hc) (deleteBySource_source_ne _ _ c hc)
  constructor
  · rw [hcoll2, hcoll1, hdel]
  · intro c hc hsrc
    rw [hcoll1] at hc
    rcases List.mem_append.1 hc with hmem | hmem
    · exact absurd hsrc (deleteBySource_source_ne _ _ c hmem)
    · exact newRecords_id_derivation _ _ _ c hmem

theorem reingest_idempotent_witness :
    ((ingestForUser (fun _ => ["hello world"]) "t" ⟨"a.txt", "a", ".txt"⟩ "u"
        ((ingestForUser (fun _ => ["hello world"]) "t" ⟨"a.txt", "a", ".txt"⟩ "u"
            (fun _ => []) true).2) true).2 (collectionNameFor "u") =
      (ingestForUser (fun _ => ["hello world"]) "t" ⟨"a.txt", "a", ".txt"⟩ "u"
          (fun _ => []) true).2 (collectionNameFor "u")) ∧
    (∀ c ∈ (ingestForUser (fun _ => ["hello world"]) "t" ⟨"a.txt", "a", ".txt"⟩ "u"
        (fun _ => []) true).2 (collectionNameFor "u"),
        c.meta.source = "a.txt" →
        c.id = "a" ++ "-c" ++ toString c.meta.chunkIndex) :=
  reingest_idempotent (fun _ => ["hello world"]) "t" ⟨"a.txt", "a", ".txt"⟩ "u"
    (fun _ => []) (by decide) (by decide) (by decide)

/-- Claim C9: namespaces of distinct users are fully isolated.  Ingesting a
file for one user (any file, including one whose name the other user also
uses) leaves the other user's collection untouched, so `retrieve`,
`listSources`, `deleteSource` and `count` scoped to the other user observe
exactly what they observed before. -/
theorem user_namespace_isolation (u1 u2 : String) (h : u1 ≠ u2)
    (chunkText : String → List String) (text : String) (f : FileInfo)
    (store : Store) (addOk : Bool) (dist : String → String → Nat)
    (query filename : String) (limit : Option Nat) :
    ((ingestForUser chunkText text f u1 store addOk).2 (collectionNameFor u2) =
        store (collectionNameFor u2)) ∧
    (retrieve dist (collectionNameFor u2)
        ((ingestForUser chunkText text f u1 store addOk).2 (collectionNameFor u2))
        6 query limit =
      retrieve dist (collectionNameFor u2) (store (collectionNameFor u2)) 6 query limit) ∧
    (listSources ((ingestForUser chunkText text f u1 store addOk).2 (collectionNameFor u2)) =
      listSources (store (collectionNameFor u2))) ∧
    (deleteSource ((ingestForUser chunkText text f u1 store addOk).2 (collectionNameFor u2))
        filename =
      deleteSource (store (collectionNameFor u2)) filename) ∧
    (count ((ingestForUser chunkText text f u1 store addOk).2 (collectionNameFor u2)) =
      count (store (collectionNameFor u2))) := by
  have hb := ingestForUser_other_collection chunkText text f u1 store addOk
      (collectionNameFor u2) (fun he => h (collectionNameFor_inj u2 u1 he).symm)
  exact ⟨hb, by rw [hb], by rw [hb], by rw [hb], by rw [hb]⟩

theorem user_namespace_isolation_witness :
    (((ingestForUser (fun _ => ["sample"]) "t" ⟨"a.txt", "a", ".txt"⟩ "alice"
          (fun _ => []) true).2 (collectionNameFor "bob") =
        (fun _ => ([] : List Chunk)) (collectionNameFor "bob")) ∧
      (retrieve (fun _ _ => 0) (collectionNameFor "bob")
          ((ingestForUser (fun _ => ["sample"]) "t" ⟨"a.txt", "a", ".txt"⟩ "alice"
              (fun _ => []) true).2 (collectionNameFor "bob")) 6 "q" none =
        retrieve (fun _ _ => 0) (collectionNameFor "bob")
          ((fun _ => ([] : List Chunk)) (collectionNameFor "bob")) 6 "q" none) ∧
      (listSources ((ingestForUser (fun _ => ["sample"]) "t" ⟨"a.txt", "a", ".txt"⟩ "alice"
            (fun _ => []) true).2 (collectionNameFor "bob")) =
        listSources ((fun _ => ([] : List Chunk)) (collectionNameFor "bob"))) ∧
      (deleteSource ((ingestForUser (fun _ => ["sample"]) "t" ⟨"a.txt", "a", ".txt"⟩ "alice"
            (fun _ => []) true).2 (collectionNameFor "bob")) "a.txt" =
        deleteSource ((fun _ => ([] : List Chunk)) (collectionNameFor "bob")) "a.txt") ∧
      (count ((ingestForUser (fun _ => ["sample"]) "t" ⟨"a.txt", "a", ".txt"⟩ "alice"
            (fun _ => []) true).2 (collectionNameFor "bob")) =
        count ((fun _ => ([] : List Chunk)) (collectionNameFor "bob")))) :=
  user_namespace_isolation "alice" "bob" (by decide) (fun _ => ["sample"]) "t"
    ⟨"a.txt", "a", ".txt"⟩ (fun _ => []) true (fun _ _ => 0) "q" "a.txt" none

/-! ## Properties of retrieval -/

instance : IsTotal (Chunk × Nat) (fun a b => a.2 ≤ b.2) :=
  ⟨fun a b => Nat.le_total a.2 b.2⟩

instance : IsTrans (Chunk × Nat) (fun a b => a.2 ≤ b.2) :=
  ⟨fun _ _ _ hab hbc => Nat.le_trans hab hbc⟩

theorem shapeResults_nil (metadatas : List ChunkMeta) (distances : List Nat) :
    shapeResults [] metadatas distances = [] := rfl

theorem shapeResults_cons (d : String) (ds : List String) (m : ChunkMeta)
    (ms : List ChunkMeta) (t : Nat) (ts : List Nat) :
    shapeResults (d :: ds) (m :: ms) (t :: ts) =
      { document := d, metadata := some m, distance := some t } ::
        shapeResults ds ms ts := by
  unfold shapeResults
  rw [List.length_cons, List.range_succ_eq_map, List.map_cons, List.map_map]
  simp only [Function.comp, Nat.succ_eq_add_one, List.getD_cons_zero,
    List.getD_cons_succ, List.getElem?_cons_zero, List.getElem?_cons_succ]
  refine congrArg (List.cons _) (List.map_congr_left (fun i _ => ?_))
  simp [Function.comp, Nat.succ_eq_add_one]

theorem shapeResults_map (l : List (Chunk × Nat)) :
    shapeResults (l.map (fun p => p.1.document)) (l.map (fun p => p.1.meta))
        (l.map (fun p => p.2)) =
      l.map (fun p => { document := p.1.document, metadata := some p.1.meta,
                        distance := some p.2 }) := by
  induction l with
  | nil => rfl
  | cons a l ih => rw [List.map_cons, List.map_cons, List.map_cons,
      shapeResults_cons, ih, List.map_cons]

/-- Evaluation of `retrieve` on a non-empty query against a non-empty
collection: the results are the `min (effectiveLimit limit maxResults) count`
nearest chunks in ascending distance order, shaped into `RetrievalResult`s. -/
theorem retrieve_eval (dist : String → String → Nat) (collName : String)
    (coll : List Chunk) (maxResults : Nat) (query : String) (limit : Option Nat)
    (hq : query ≠ "") (hc : coll ≠ []) :
    retrieve dist collName coll maxResults query limit =
      (Except.ok
        ((((coll.map (fun c => (c, dist query c.document))).insertionSort
            (fun a b => a.2 ≤ b.2)).take
              (min (effectiveLimit limit maxResults) coll.length)).map
          (fun p => { document := p.1.document, metadata := some p.1.meta,
                      distance := some p.2 })),
       [Event.retrieveCall query limit, Event.storeCount collName,
        Event.storeQuery collName query
          (min (effectiveLimit limit maxResults) coll.length)]) := by
  unfold retrieve collectionQuery
  rw [if_neg hq, if_neg (by simpa using hc)]
  simp only [shapeResults_map]

/-- Claim C3: against any user's namespace, a non-empty query with a positive
requested size `k` succeeds and returns exactly `min k count` results, in
non-decreasing distance order, each taken from that user's collection (with
its metadata and its distance to the query); a namespace with zero chunks
yields the empty result list rather than an error. -/
theorem retrieve_min_k_sorted (dist : String → String → Nat) (store : Store)
    (userId query : String) (k : Nat) (hq : query ≠ "") (hk : 1 ≤ k) :
    ∃ rs tr,
      retrieve dist (collectionNameFor userId) (store (collectionNameFor userId))
          6 query (some k) = (Except.ok rs, tr) ∧
      rs.length = min k (count (store (collectionNameFor userId))) ∧
      List.Pairwise (fun a b => a.distance.getD 0 ≤ b.distance.getD 0) rs ∧
      (∀ r ∈ rs, ∃ c ∈ store (collectionNameFor userId),
          r.document = c.document ∧ r.metadata = some c.meta ∧
          r.distance = some (dist query c.document)) ∧
      (store (collectionNameFor userId) = [] → rs = []) := by
  by_cases hc : store (collectionNameFor userId) = []
  · refine ⟨[], [Event.retrieveCall query (some k), Event.storeCount (collectionNameFor userId)], ?_, ?_, ?_, ?_, ?_⟩
    · rw [hc]
      unfold retrieve
      rw [if_neg hq]
      rfl
    · simp [count, hc]
    · exact List.Pairwise.nil
    · intro r hr
      exact absurd hr (List.not_mem_nil r)
    · intro _
      rfl
  · obtain ⟨m, rfl⟩ : ∃ m, k = m + 1 := by
      cases k with
      | zero => exact absurd hk (by decide)
      | succ m => exact ⟨m, rfl⟩
    rw [retrieve_eval dist _ _ 6 query (some (m + 1)) hq hc]
    refine ⟨_, _, rfl, ?_, ?_, ?_, ?_⟩
    · rw [List.length_map, List.length_take, List.length_insertionSort,
        List.length_map]
      show min (min (m + 1) _) _ = _
      rw [Nat.min_assoc, Nat.min_self]
      rfl
    · refine List.Pairwise.map _ (fun a b hab => ?_)
        (List.Pairwise.sublist (List.take_sublist _ _)
          (List.sorted_insertionSort _ _))
      simpa using hab
    · intro r hr
      obtain ⟨p, hp, rfl⟩ := List.mem_map.1 hr
      have hp2 : p ∈ (store (collectionNameFor userId)).map
          (fun c => (c, dist query c.document)) :=
        (List.mem_insertionSort _).1 (List.mem_of_mem_take hp)
      obtain ⟨c, hcmem, rfl⟩ := List.mem_map.1 hp2
      exact ⟨c, hcmem, rfl, rfl, rfl⟩
    · intro h
      exact absurd h hc

theorem retrieve_min_k_sorted_witness :
    ("q" ≠ "") ∧ 1 ≤ 1 ∧
    (∃ rs tr,
      retrieve (fun _ d => d.length) (collectionNameFor "u")
          ((fun _ => ([⟨"a-c0", "bbb", ⟨"a.txt", ".txt", 0⟩⟩,
                       ⟨"a-c1", "z", ⟨"a.txt", ".txt", 1⟩⟩] : List Chunk))
            (collectionNameFor "u"))
          6 "q" (some 1) = (Except.ok rs, tr) ∧
      rs.length = min 1 (count ((fun _ =>
          ([⟨"a-c0", "bbb", ⟨"a.txt", ".txt", 0⟩⟩,
            ⟨"a-c1", "z", ⟨"a.txt", ".txt", 1⟩⟩] : List Chunk))
            (collectionNameFor "u"))) ∧
      List.Pairwise (fun a b => a.distance.getD 0 ≤ b.distance.getD 0) rs ∧
      (∀ r ∈ rs, ∃ c ∈ (fun _ =>
          ([⟨"a-c0", "bbb", ⟨"a.txt", ".txt", 0⟩⟩,
            ⟨"a-c1", "z", ⟨"a.txt", ".txt", 1⟩⟩] : List Chunk))
            (collectionNameFor "u"),
          r.document = c.document ∧ r.metadata = some c.meta ∧
          r.distance = some ((fun _ d => d.length) "q" c.document)) ∧
      ((fun _ => ([⟨"a-c0", "bbb", ⟨"a.txt", ".txt", 0⟩⟩,
                   ⟨"a-c1", "z", ⟨"a.txt", ".txt", 1⟩⟩] : List Chunk))
          (collectionNameFor "u") = [] → rs = [])) :=
  ⟨by decide, by decide,
    retrieve_min_k_sorted (fun _ d => d.length)
      (fun _ => ([⟨"a-c0", "bbb", ⟨"a.txt", ".txt", 0⟩⟩,
                  ⟨"a-c1", "z", ⟨"a.txt", ".txt", 1⟩⟩] : List Chunk)) "u" "q" 1
      (by decide) (by decide)⟩

/-- Claim C4: for every collection state (empty ones included), `retrieve` on
the empty query string fails with the `InvalidQuery` `ValueError` and its trace
shows the failure happens before any store call — no count, no store query, no
model call — so an empty query never produces a zero-result success. -/
theorem retrieve_empty_query_rejected (dist : String → String → Nat)
    (collName : String) (coll : List Chunk) (maxResults : Nat)
    (limit : Option Nat) :
    (retrieve dist collName coll maxResults "" limit =
      (Except.error (PyError.valueError "Query must be a non-empty string."),
       [Event.retrieveCall "" limit])) ∧
    ([Event.retrieveCall "" limit].filter Event.isStore = []) ∧
    ([Event.retrieveCall "" limit].filter Event.isModel = []) :=
  ⟨rfl, rfl, rfl⟩

/-- Claim C10: an explicit `limit` of `0` is falsy in Python, so
`limit or maxResults` replaces it by the default maximum 6; against a
namespace with at least 6 chunks, a non-empty query with `limit=0` therefore
returns 6 results, not zero results. -/
theorem retrieve_limit_zero_default (dist : String → String → Nat)
    (store : Store) (userId query : String) (hq : query ≠ "")
    (h6 : 6 ≤ (store (collectionNameFor userId)).length) :
    ∃ rs tr,
      retrieve dist (collectionNameFor userId) (store (collectionNameFor userId))
          6 query (some 0) = (Except.ok rs, tr) ∧
      rs.length = 6 := by
  have hc : store (collectionNameFor userId) ≠ [] := by
    intro h
    rw [h] at h6
    exact absurd h6 (by decide)
  rw [retrieve_eval dist _ _ 6 query (some 0) hq hc]
  refine ⟨_, _, rfl, ?_⟩
  rw [List.length_map, List.length_take, List.length_insertionSort,
    List.length_map]
  show min (min 6 _) _ = 6
  omega

theorem retrieve_limit_zero_default_witness :
    ("q" ≠ "") ∧
    (∃ rs tr,
      retrieve (fun _ d => d.length) (collectionNameFor "u")
          ((fun _ => ([⟨"a-c0", "p0", ⟨"a.txt", ".txt", 0⟩⟩,
                       ⟨"a-c1", "p1", ⟨"a.txt", ".txt", 1⟩⟩,
                       ⟨"a-c2", "p2", ⟨"a.txt", ".txt", 2⟩⟩,
                       ⟨"a-c3", "p3", ⟨"a.txt", ".txt", 3⟩⟩,
                       ⟨"a-c4", "p4", ⟨"a.txt", ".txt", 4⟩⟩,
                       ⟨"a-c5", "p5", ⟨"a.txt", ".txt", 5⟩⟩,
                       ⟨"a-c6", "p6", ⟨"a.txt", ".txt", 6⟩⟩] : List Chunk))
            (collectionNameFor "u"))
          6 "q" (some 0) = (Except.ok rs, tr) ∧
      rs.length = 6) :=
  ⟨by decide,
    retrieve_limit_zero_default (fun _ d => d.length)
      (fun _ => ([⟨"a-c0", "p0", ⟨"a.txt", ".txt", 0⟩⟩,
                  ⟨"a-c1", "p1", ⟨"a.txt", ".txt", 1⟩⟩,
                  ⟨"a-c2", "p2", ⟨"a.txt", ".txt", 2⟩⟩,
                  ⟨"a-c3", "p3", ⟨"a.txt", ".txt", 3⟩⟩,
                  ⟨"a-c4", "p4", ⟨"a.txt", ".txt", 4⟩⟩,
                  ⟨"a-c5", "p5", ⟨"a.txt", ".txt", 5⟩⟩,
                  ⟨"a-c6", "p6", ⟨"a.txt", ".txt", 6⟩⟩] : List Chunk)) "u" "q"
      (by decide) (by decide)⟩

/-! ## Properties of the writing agent -/

theorem retrieve_ok_pair (dist : String → String → Nat) (collName : String)
    (coll : List Chunk) (maxResults : Nat) (query : String) (limit : Option Nat)
    (hq : query ≠ "") :
    ∃ rs tr, retrieve dist collName coll maxResults query limit =
      (Except.ok rs, tr) := by
  by_cases hc : coll = []
  · subst hc
    refine ⟨[], [Event.retrieveCall query limit, Event.storeCount collName], ?_⟩
    unfold retrieve
    rw [if_neg hq]
    rfl
  · exact ⟨_, _, retrieve_eval dist collName coll maxResults query limit hq hc⟩

theorem retrieve_trace_filters (dist : String → String → Nat) (collName : String)
    (coll : List Chunk) (maxResults : Nat) (query : String) (limit : Option Nat) :
    ((retrieve dist collName coll maxResults query limit).2.filter Event.isRetrieve =
      [Event.retrieveCall query limit]) ∧
    ((retrieve dist collName coll maxResults query limit).2.filter Event.isModel = []) := by
  by_cases hq : query = "" <;> by_cases hc : coll.length = 0 <;>
    simp [retrieve, collectionQuery, hq, hc, Event.isRetrieve, Event.isModel,
      List.filter]

/-- The documents that one aspect query of the profiler retrieves
(`retriever.retrieve(query=aspect, limit=2)`, agent.py line 34). -/
def aspectSample (dist : String → String → Nat) (collName : String)
    (coll : List Chunk) (aspect : String) : List String :=
  match retrieve dist collName coll 6 aspect (some 2) with
  | (Except.ok results, _) => results.map (fun r => r.document)
  | (Except.error _, _) => []

/-- All samples the profiler gathers: the documents of every aspect query in
declared aspect order, duplicates across aspects kept (no deduplication). -/
def aspectSamples (dist : String → String → Nat) (collName : String)
    (coll : List Chunk) : List String :=
  styleAspects.flatMap (aspectSample dist collName coll)

theorem collectSamples_ok (dist : String → String → Nat) (collName : String)
    (coll : List Chunk) (aspects : List String) (h : ∀ a ∈ aspects, a ≠ "") :
    ∃ tr, collectSamples dist collName coll aspects =
        (Except.ok (aspects.flatMap (aspectSample dist collName coll)), tr) ∧
      tr.filter Event.isRetrieve =
        aspects.map (fun a => Event.retrieveCall a (some 2)) ∧
      tr.filter Event.isModel = [] := by
  induction aspects with
  | nil => exact ⟨[], rfl, rfl, rfl⟩
  | cons a rest ih =>
    obtain ⟨tr2, h2, h2r, h2m⟩ := ih (fun x hx => h x (List.mem_cons_of_mem _ hx))
    obtain ⟨rs, tr1, hr⟩ := retrieve_ok_pair dist collName coll 6 a (some 2)
        (h a (List.mem_cons_self _ _))
    have hf := retrieve_trace_filters dist collName coll 6 a (some 2)
    rw [hr] at hf
    have hs : aspectSample dist collName coll a = rs.map (fun r => r.document) := by
      unfold aspectSample
      rw [hr]
    refine ⟨tr1 ++ tr2, ?_, ?_, ?_⟩
    · simp only [collectSamples]
      rw [hr, h2]
      simp only [List.flatMap_cons, hs]
    · rw [List.filter_append, hf.1, h2r, List.map_cons]
      rfl
    · rw [List.filter_append, hf.2, h2m]
      rfl

/-- Claim C8: `buildStyleProfile` issues exactly the four fixed aspect queries
with `limit=2` each (in declared order, with no deduplication of the collected
samples — they are the plain concatenation `aspectSamples` across aspects);
when no samples exist it returns the fixed sentinel string without any model
call; otherwise it makes exactly one model call whose prompt concatenates at
most 8 samples joined by the delimiter. -/
theorem buildStyleProfile_spec (dist : String → String → Nat) (llm : Llm)
    (collName : String) (coll : List Chunk) :
    ((buildStyleProfile dist llm collName coll).2.filter Event.isRetrieve =
        styleAspects.map (fun a => Event.retrieveCall a (some 2))) ∧
    (aspectSamples dist collName coll = [] →
        (buildStyleProfile dist llm collName coll).1 =
          Except.ok "No writing samples available yet." ∧
        (buildStyleProfile dist llm collName coll).2.filter Event.isModel = []) ∧
    (aspectSamples dist collName coll ≠ [] →
        (buildStyleProfile dist llm collName coll).2.filter Event.isModel =
          [Event.modelCall none (profileInstruction ++
            String.intercalate "\n\n---\n\n"
              ((aspectSamples dist collName coll).take 8))]) := by
  obtain ⟨tr, hcs, hrf, hmf⟩ := collectSamples_ok dist collName coll styleAspects
      (by decide)
  unfold buildStyleProfile
  rw [hcs]
  simp only []
  by_cases hsamp : styleAspects.flatMap (aspectSample dist collName coll) = []
  · rw [if_pos hsamp]
    exact ⟨hrf, fun _ => ⟨rfl, hmf⟩, fun hne => absurd hsamp hne⟩
  · rw [if_neg hsamp]
    cases hllm : llm none (profileInstruction ++ String.intercalate "\n\n---\n\n"
        ((styleAspects.flatMap (aspectSample dist collName coll)).take 8)) with
    | error e =>
      refine ⟨?_, fun heq => absurd heq hsamp, fun _ => ?_⟩
      · rw [List.filter_append, hrf]
        rfl
      · rw [List.filter_append, hmf]
        rfl
    | ok body =>
      refine ⟨?_, fun heq => absurd heq hsamp, fun _ => ?_⟩
      · rw [List.filter_append, hrf]
        rfl
      · rw [List.filter_append, hmf]
        rfl

theorem buildStyleProfile_spec_witness :
    ((buildStyleProfile (fun _ _ => 0) (fun _ _ => Except.ok "P") "n" []).2.filter
        Event.isRetrieve =
      styleAspects.map (fun a => Event.retrieveCall a (some 2))) ∧
    ((buildStyleProfile (fun _ _ => 0) (fun _ _ => Except.ok "P") "n" []).1 =
      Except.ok "No writing samples available yet.") ∧
    ((buildStyleProfile (fun _ _ => 0) (fun _ _ => Except.ok "P") "n" []).2.filter
        Event.isModel = []) := by
  have h := buildStyleProfile_spec (fun _ _ => 0) (fun _ _ => Except.ok "P") "n" []
  exact ⟨h.1, (h.2.1 rfl).1, (h.2.1 rfl).2⟩

/-- Claim C5: for a user whose namespace holds zero chunks, `generateInUserVoice`
returns a normal result whose payload carries an explanatory `error` message and
`generatedText = none`, and its trace shows no model call and no store query
(hence no embedding computation) — the only call made is the `count`. -/
theorem generate_no_samples_error_result (dist : String → String → Nat)
    (llm : Llm) (store : Store) (prompt userId styleHint : String)
    (hp : prompt ≠ "") (h0 : store (collectionNameFor userId) = []) :
    (generateInUserVoice dist llm store prompt userId styleHint =
      (Except.ok { error := some "No writing samples uploaded yet. Please upload some of your work first.",
                   generatedText := none, styleProfile := none, sourcesUsed := [] },
       [Event.storeCount (collectionNameFor userId)])) ∧
    ((generateInUserVoice dist llm store prompt userId styleHint).2.filter
        Event.isModel = []) ∧
    ((generateInUserVoice dist llm store prompt userId styleHint).2.filter
        Event.isStoreQuery = []) := by
  have heq : generateInUserVoice dist llm store prompt userId styleHint =
      (Except.ok { error := some "No writing samples uploaded yet. Please upload some of your work first.",
                   generatedText := none, styleProfile := none, sourcesUsed := [] },
       [Event.storeCount (collectionNameFor userId)]) := by
    simp only [generateInUserVoice]
    rw [h0]
    rfl
  refine ⟨heq, ?_, ?_⟩ <;> rw [heq] <;> rfl

theorem generate_no_samples_error_result_witness :
    generateInUserVoice (fun _ _ => 0) (fun _ _ => Except.ok "P") (fun _ => [])
        "write an opening line" "u" "" =
      (Except.ok { error := some "No writing samples uploaded yet. Please upload some of your work first.",
                   generatedText := none, styleProfile := none, sourcesUsed := [] },
       [Event.storeCount (collectionNameFor "u")]) :=
  (generate_no_samples_error_result (fun _ _ => 0) (fun _ _ => Except.ok "P")
    (fun _ => []) "write an opening line" "u" "" (by decide) rfl).1

/-- Claim C6 against the code: with a non-empty `styleHint` the source's
append of `f"\nAdditional guidance: {style_hint}"` (agent.py line 110) raises
`NameError` — the name `style_hint` is never defined, the parameter is
`styleHint` — so the call fails before any final model call instead of
completing with the hint appended. -/
theorem generate_styleHint_name_error :
    ((generateInUserVoice (fun _ _ => 0) (fun _ _ => Except.ok "PROFILE")
        (fun n => if n = collectionNameFor "u"
                  then [⟨"a-c0", "sample text", ⟨"a.txt", ".txt", 0⟩⟩] else [])
        "write an opening line" "u" "more formal tone").1 =
      Except.error (PyError.nameError "style_hint")) ∧
    ((generateInUserVoice (fun _ _ => 0) (fun _ _ => Except.ok "PROFILE")
        (fun n => if n = collectionNameFor "u"
                  then [⟨"a-c0", "sample text", ⟨"a.txt", ".txt", 0⟩⟩] else [])
        "write an opening line" "u" "more formal tone").2.filter
          Event.isGenerate = []) :=
  ⟨rfl, rfl⟩

/-- Claim C7 against the code: even when every upstream call succeeds (the
model oracle returns a body), `generateInUserVoice` makes the one final model
call and then raises `AttributeError` at `response.raiseForStatus()`
(agent.py line 123; the `requests` method is `raise_for_status`, used
correctly at line 54), so the model's text is never returned. -/
theorem generate_raiseForStatus_attribute_error :
    ((generateInUserVoice (fun _ _ => 0) (fun _ _ => Except.ok "GENERATED TEXT")
        (fun n => if n = collectionNameFor "u"
                  then [⟨"a-c0", "sample text", ⟨"a.txt", ".txt", 0⟩⟩] else [])
        "write an opening line" "u" "").1 =
      Except.error (PyError.attributeError "raiseForStatus")) ∧
    (((generateInUserVoice (fun _ _ => 0) (fun _ _ => Except.ok "GENERATED TEXT")
        (fun n => if n = collectionNameFor "u"
                  then [⟨"a-c0", "sample text", ⟨"a.txt", ".txt", 0⟩⟩] else [])
        "write an opening line" "u" "").2.filter Event.isGenerate).length = 1) :=
  ⟨rfl, rfl⟩

end SeniorProject
